import Mathlib

/-!
# Verification of the mint-color-theme theme-switching scripts

Shallow embedding of the repository's theme controllers:

* the binary variant (`theme.js`, identical copy in the fourth file):
  `goDark` / `initializeTheme` with storage key `"dark-mode"`, warn-and-return
  configuration guards, and unconditional image-source overwrite;
* the tri-state variants (the two middle files): `setTheme` /
  `initializeTheme` / `preloadCorrectAssets` with storage key `"color-mode"`,
  conditional image-source switching, picture/lottie dispatch, and (richest
  variant only) the `.dark-asset`/`.light-asset` visibility pass.

DOM elements are modelled as records of the attributes/classes the scripts
read and write; `localStorage` is an `Option String` field; the OS
`prefers-color-scheme: dark` signal is a `Bool` field; the inline style of the
document root is a function from custom-property name to `Option String`.
JavaScript string truthiness (null and the empty string are falsy) is modelled
by `attrTruthy` and explicit `length` tests, mirroring the source.
-/

/-- JS truthiness of a `getAttribute` result: `null` and `""` are falsy. -/
def attrTruthy : Option String → Bool
  | some s => !(s == "")
  | none => false

/-- JS object assignment `o[k] = v`: update in place if the key exists,
otherwise append (insertion order preserved). -/
def objSet (o : List (String × String)) (k v : String) : List (String × String) :=
  if o.any (fun kv => kv.1 == k) then
    o.map (fun kv => if kv.1 == k then (k, v) else kv)
  else o ++ [(k, v)]

/-- Whether a JS object (assoc list) has a key. -/
def hasKey (o : List (String × String)) (k : String) : Bool :=
  o.any (fun kv => kv.1 == k)

/-- One iteration of the binary variant's table-building loop (`theme.js`
lines 18–26): read `--color--name` and `--dark--name`; skip the name when the
light value is empty (`if (lightValue.length)`); dark falls back to light
when the dark value is empty (`if (!darkValue.length)`). -/
def buildStepBin (computed : String → String)
    (tables : List (String × String) × List (String × String)) (item : String) :
    List (String × String) × List (String × String) :=
  let lightValue := computed ("--color--" ++ item)
  let darkValue := computed ("--dark--" ++ item)
  if lightValue.length ≠ 0 then
    let darkValue := if darkValue.length = 0 then lightValue else darkValue
    (objSet tables.1 ("--color--" ++ item) lightValue,
     objSet tables.2 ("--color--" ++ item) darkValue)
  else tables

/-- Color-table builder of the binary variant (`theme.js` lines 16–26). -/
def buildTablesBin (computed : String → String) (vars : List String) :
    List (String × String) × List (String × String) :=
  vars.foldl (buildStepBin computed) ([], [])

/-- One iteration of the tri-state variants' table-building loop (lines
108–113 of the richest file): both tables are written unconditionally for
every declared name; the dark value falls back to the light value via JS `||`
(so only when the dark computed value is the empty string). -/
def buildStepTri (computed : String → String)
    (tables : List (String × String) × List (String × String)) (item : String) :
    List (String × String) × List (String × String) :=
  let lightValue := computed ("--color--" ++ item)
  let darkValue0 := computed ("--dark--" ++ item)
  let darkValue := if darkValue0.length = 0 then lightValue else darkValue0
  (objSet tables.1 ("--color--" ++ item) lightValue,
   objSet tables.2 ("--color--" ++ item) darkValue)

/-- Color-table builder of the tri-state variants (lines 104–113). -/
def buildTablesTri (computed : String → String) (vars : List String) :
    List (String × String) × List (String × String) :=
  vars.foldl (buildStepTri computed) ([], [])

/-- `setColors(colorObject)`: write every entry of the table as an inline
custom property on the document root (later entries overwrite earlier ones,
as `Object.keys` iteration does). -/
def setColors (styles : String → Option String) (table : List (String × String)) :
    String → Option String :=
  table.foldl (fun st kv => fun k => if k = kv.1 then some kv.2 else st k) styles

/-- The value the last table entry with key `k` assigns, if any. -/
def lookupLast (t : List (String × String)) (k : String) : Option String :=
  match t with
  | [] => none
  | kv :: rest =>
    match lookupLast rest k with
    | some v => some v
    | none => if k = kv.1 then some kv.2 else none

/-- An image-like element (`img`, or a `source`/`img` child of a `picture`):
the four declarative attributes plus the mutable `src`/`srcset` properties. -/
structure ImgEl where
  dataLightSrc : Option String
  dataDarkSrc : Option String
  dataLightSrcset : Option String
  dataDarkSrcset : Option String
  src : Option String
  srcset : Option String
  deriving DecidableEq, Repr

/-- `switchImageSource(element, isDark)` of the richest variant (lines
121–134): each of `src`/`srcset` is written only when the target-mode
attribute is truthy. -/
def switchImageSource (el : ImgEl) (isDark : Bool) : ImgEl :=
  if isDark then
    let el1 := if attrTruthy el.dataDarkSrc then { el with src := el.dataDarkSrc } else el
    if attrTruthy el1.dataDarkSrcset then { el1 with srcset := el1.dataDarkSrcset } else el1
  else
    let el1 := if attrTruthy el.dataLightSrc then { el with src := el.dataLightSrc } else el
    if attrTruthy el1.dataLightSrcset then { el1 with srcset := el1.dataLightSrcset } else el1

/-- Per-asset body of `switchAssets` in the middle tri-state variant (lines
50–60 of that file): `src` is written only when the target-mode attribute is
truthy; `srcset` is never touched. -/
def switchAsset000 (el : ImgEl) (isDark : Bool) : ImgEl :=
  if isDark && attrTruthy el.dataDarkSrc then { el with src := el.dataDarkSrc }
  else if !isDark && attrTruthy el.dataLightSrc then { el with src := el.dataLightSrc }
  else el

/-- Per-asset body of `switchAssets` in the binary variant (`theme.js` lines
37–44): `asset.src = isDark ? darkSrc : lightSrc`, unconditionally, even when
the chosen attribute is absent. -/
def switchAssetBin (el : ImgEl) (isDark : Bool) : ImgEl :=
  { el with src := if isDark then el.dataDarkSrc else el.dataLightSrc }

/-- A `lottie-player` element: declarative attributes, its `src` attribute,
and the currently loaded/playing animation. -/
structure LottieEl where
  dataLightSrc : Option String
  dataDarkSrc : Option String
  srcAttr : Option String
  loaded : Option String
  playing : Bool
  deriving DecidableEq, Repr

/-- The lottie branch of `switchAssets` in the richest variant (lines
138–146): `newSrc = isDark && darkSrc ? darkSrc : lightSrc`; reload
(stop → load → play) only when `newSrc` is truthy and differs from the `src`
attribute. `load` does not write the `src` attribute back. -/
def switchLottie (el : LottieEl) (isDark : Bool) : LottieEl :=
  let newSrc := if isDark && attrTruthy el.dataDarkSrc then el.dataDarkSrc else el.dataLightSrc
  if attrTruthy newSrc && !(el.srcAttr == newSrc) then
    { el with loaded := newSrc, playing := true }
  else el

/-- A `.theme-asset` element of the richest variant, discriminated by tag
name as the source does (`lottie-player`, `picture`, `img`, anything else). -/
inductive ThemeAsset where
  | lottie (el : LottieEl)
  | picture (children : List ImgEl)
  | img (el : ImgEl)
  | other
  deriving DecidableEq, Repr

/-- Dispatch of `switchAssets` in the richest variant over one `.theme-asset`
element (lines 137–154). -/
def switchThemeAsset (a : ThemeAsset) (isDark : Bool) : ThemeAsset :=
  match a with
  | .lottie el => .lottie (switchLottie el isDark)
  | .picture children => .picture (children.map (fun el => switchImageSource el isDark))
  | .img el => .img (switchImageSource el isDark)
  | .other => .other

/-- An element as seen by the `.dark-asset, .light-asset` visibility pass:
which of the two classes it carries and whether it has the `hidden` class. -/
structure VisEl where
  darkAsset : Bool
  lightAsset : Bool
  hidden : Bool
  deriving DecidableEq, Repr

/-- The visibility pass of the richest variant (lines 157–165). Only elements
matching `.dark-asset, .light-asset` are processed. `classList.toggle(c,
force)` sets the presence of `c` to `force`, so the second toggle overwrites
the first. -/
def switchVisibility (el : VisEl) (isDark : Bool) : VisEl :=
  if el.darkAsset || el.lightAsset then
    if isDark then
      let el1 := { el with hidden := el.lightAsset }
      { el1 with hidden := !el1.darkAsset }
    else
      let el1 := { el with hidden := el.darkAsset }
      { el1 with hidden := !el1.lightAsset }
  else el

/-- Page state for the tri-state variants: the `"color-mode"` storage key, the
root `dark-mode` class, the root inline custom properties, the `.theme-asset`
elements, the visibility-pass elements, the `active` class of each of the
three optional toggle controls (`none` = control absent), and the OS
dark-scheme signal. -/
structure TriState where
  storage : Option String
  darkModeClass : Bool
  rootStyles : String → Option String
  assets : List ThemeAsset
  visEls : List VisEl
  toggleSystem : Option Bool
  toggleLight : Option Bool
  toggleDark : Option Bool
  osDark : Bool

/-- `mode === 'dark' || (mode === 'system' && matchMedia(...).matches)`:
the mode-resolution expression shared by `setTheme` and
`preloadCorrectAssets` in the tri-state variants. -/
def resolveIsDark (mode : String) (osDark : Bool) : Bool :=
  mode == "dark" || (mode == "system" && osDark)

/-- `switchAssets(isDark)` of the richest variant as a state transformer:
the image/picture/lottie pass followed by the visibility pass. -/
def switchAssetsState (isDark : Bool) (s : TriState) : TriState :=
  { s with
    assets := s.assets.map (fun a => switchThemeAsset a isDark)
    visEls := s.visEls.map (fun el => switchVisibility el isDark) }

/-- `setTheme(mode)` of the tri-state variants (lines 168–175): resolve,
persist the mode, force the root class, write the relevant table, switch
assets, update toggle `active` states (`updateToggleStates`, lines 177–182). -/
def setTheme (lightColors darkColors : List (String × String)) (mode : String)
    (s : TriState) : TriState :=
  let isDark := resolveIsDark mode s.osDark
  let s1 := switchAssetsState isDark s
  { s1 with
    storage := some mode
    darkModeClass := isDark
    rootStyles := setColors s.rootStyles (if isDark then darkColors else lightColors)
    toggleSystem := s.toggleSystem.map (fun _ => mode == "system")
    toggleLight := s.toggleLight.map (fun _ => mode == "light")
    toggleDark := s.toggleDark.map (fun _ => mode == "dark") }

/-- `localStorage.getItem("color-mode") || 'system'`: JS `||` falls through on
`null` and on the empty string. -/
def storedModeOrSystem (storage : Option String) : String :=
  match storage with
  | some v => if v == "" then "system" else v
  | none => "system"

/-- `initializeTheme()` of the tri-state variants (lines 184–186): read the
stored mode (defaulting to `'system'`) and apply it. The change listener it
registers is modelled separately by `osChangeTri`. -/
def initializeTheme (lightColors darkColors : List (String × String))
    (s : TriState) : TriState :=
  setTheme lightColors darkColors (storedModeOrSystem s.storage) s

/-- The OS color-scheme change listener of the tri-state variants (lines
187–191): on an event, re-apply only when the storage value is exactly
`'system'` at event time. The event also updates the live OS signal. -/
def osChangeTri (lightColors darkColors : List (String × String)) (osNow : Bool)
    (s : TriState) : TriState :=
  let s1 := { s with osDark := osNow }
  if s1.storage == some "system" then setTheme lightColors darkColors "system" s1 else s1

/-- `preloadCorrectAssets()` of the tri-state variants (lines 201–206):
resolve from storage/OS alone and switch assets only (no storage write, no
colors, no toggles). -/
def preloadCorrectAssets (s : TriState) : TriState :=
  let currentMode := storedModeOrSystem s.storage
  let isDark := resolveIsDark currentMode s.osDark
  switchAssetsState isDark s

/-- The declared variable list of the tri-state variants (line 103):
`scriptTag ? scriptTag.getAttribute("tr-color-vars").split(",") : []` —
no warning, no early return. -/
def triCssVariables (scriptTagAttr : Option String) : List String :=
  match scriptTagAttr with
  | some v => v.splitOn ","
  | none => []

/-- Boot sequence of the tri-state variants: build the tables from the
declaration (empty when the declaration element is absent), preload assets,
then run `initializeTheme` (`setupToggles` only registers handlers). -/
def triBoot (scriptTagAttr : Option String) (computed : String → String)
    (s : TriState) : TriState :=
  let tables := buildTablesTri computed (triCssVariables scriptTagAttr)
  initializeTheme tables.1 tables.2 (preloadCorrectAssets s)

/-- Page state for the binary variant: the `"dark-mode"` storage key, the root
class, root inline custom properties, `.theme-asset` images, the module-level
`togglePressed` string, the `aria-pressed` values of the bound toggle elements
(`none` until `DOMContentLoaded` binds them), and the OS signal. -/
structure BinState where
  storage : Option String
  darkModeClass : Bool
  rootStyles : String → Option String
  images : List ImgEl
  togglePressed : String
  toggleAria : Option (List String)
  osDark : Bool

/-- `goDark(dark)` of the binary variant (`theme.js` lines 46–65): persist
`"true"`/`"false"` unconditionally, force the root class, write the table,
set `togglePressed`, switch assets, and sync `aria-pressed` when the toggle
list is defined. -/
def goDark (lightColors darkColors : List (String × String)) (dark : Bool)
    (s : BinState) : BinState :=
  let pressed := if dark then "true" else "false"
  { s with
    storage := some pressed
    darkModeClass := dark
    rootStyles := setColors s.rootStyles (if dark then darkColors else lightColors)
    togglePressed := pressed
    images := s.images.map (fun el => switchAssetBin el dark)
    toggleAria := s.toggleAria.map (fun l => l.map (fun _ => pressed)) }

/-- `initializeTheme()` of the binary variant (`theme.js` lines 71–79): use
the stored string (dark iff it is `"true"`) when present, otherwise mirror
the OS signal. The change listener it registers is modelled by
`osChangeBin`. -/
def initializeThemeBin (lightColors darkColors : List (String × String))
    (s : BinState) : BinState :=
  match s.storage with
  | some v => goDark lightColors darkColors (v == "true") s
  | none => goDark lightColors darkColors s.osDark s

/-- The OS change listener of the binary variant (`theme.js` lines 81–85):
re-apply via `checkPreference` only when the storage value is `null` at event
time. The event also updates the live OS signal. -/
def osChangeBin (lightColors darkColors : List (String × String)) (osNow : Bool)
    (s : BinState) : BinState :=
  let s1 := { s with osDark := osNow }
  if s1.storage == none then goDark lightColors darkColors osNow s1 else s1

/-- Outcome of the binary variant's `colorModeToggle` configuration guards:
either a console warning with no further behavior, or the built tables. -/
inductive BinSetup where
  | disabled (warning : String)
  | active (lightColors darkColors : List (String × String))
  deriving DecidableEq, Repr

/-- The guard structure of `colorModeToggle` (`theme.js` lines 6–30): missing
declaration element, empty attribute value, or an empty resulting light table
each warn and return before any behavior is installed. -/
def colorModeToggleSetup (scriptTagAttr : Option String) (computed : String → String) :
    BinSetup :=
  match scriptTagAttr with
  | none => .disabled "Script tag with tr-color-vars attribute not found"
  | some cssVariables =>
    if cssVariables.length = 0 then
      .disabled "Value of tr-color-vars attribute not found"
    else
      let tables := buildTablesBin computed (cssVariables.splitOn ",")
      if tables.1.length = 0 then
        .disabled "No variables found matching tr-color-vars attribute value"
      else .active tables.1 tables.2

/-! ## Helper lemmas -/

theorem setColors_cons (st : String → Option String) (kv : String × String)
    (rest : List (String × String)) :
    setColors st (kv :: rest)
      = setColors (fun k => if k = kv.1 then some kv.2 else st k) rest := rfl

theorem setColors_char (t : List (String × String)) (st : String → Option String)
    (k : String) :
    setColors st t k
      = match lookupLast t k with
        | some v => some v
        | none => st k := by
  induction t generalizing st with
  | nil => rfl
  | cons kv rest ih =>
    rw [setColors_cons, ih]
    cases h : lookupLast rest k with
    | some v => simp [lookupLast, h]
    | none =>
      simp only [lookupLast, h]
      by_cases hk : k = kv.1 <;> simp [hk]

theorem setColors_setColors (st : String → Option String) (t : List (String × String)) :
    setColors (setColors st t) t = setColors st t := by
  funext k
  rw [setColors_char, setColors_char]
  cases h : lookupLast t k with
  | some v => rfl
  | none => rfl

theorem map_idem_of_idem {α : Type} (f : α → α) (hf : ∀ a, f (f a) = f a)
    (l : List α) : (l.map f).map f = l.map f := by
  induction l with
  | nil => rfl
  | cons a l ih => simp [hf, ih]

theorem switchImageSource_idem (el : ImgEl) (d : Bool) :
    switchImageSource (switchImageSource el d) d = switchImageSource el d := by
  obtain ⟨ls, ds, lss, dss, src0, srcset0⟩ := el
  cases d
  · cases h1 : attrTruthy ls <;> cases h2 : attrTruthy lss <;>
      simp [switchImageSource, h1, h2]
  · cases h1 : attrTruthy ds <;> cases h2 : attrTruthy dss <;>
      simp [switchImageSource, h1, h2]

theorem switchAsset000_idem (el : ImgEl) (d : Bool) :
    switchAsset000 (switchAsset000 el d) d = switchAsset000 el d := by
  obtain ⟨ls, ds, lss, dss, src0, srcset0⟩ := el
  cases d
  · cases h1 : attrTruthy ls <;> simp [switchAsset000, h1]
  · cases h1 : attrTruthy ds <;> simp [switchAsset000, h1]

theorem switchAssetBin_idem (el : ImgEl) (d : Bool) :
    switchAssetBin (switchAssetBin el d) d = switchAssetBin el d := by
  obtain ⟨ls, ds, lss, dss, src, srcset⟩ := el
  cases d <;> rfl

theorem switchLottie_idem (el : LottieEl) (d : Bool) :
    switchLottie (switchLottie el d) d = switchLottie el d := by
  obtain ⟨ls, ds, sa, ld, pl⟩ := el
  simp only [switchLottie]
  split_ifs <;> simp_all

theorem switchThemeAsset_idem (a : ThemeAsset) (d : Bool) :
    switchThemeAsset (switchThemeAsset a d) d = switchThemeAsset a d := by
  cases a with
  | lottie el => simp [switchThemeAsset, switchLottie_idem]
  | picture cs =>
    simp only [switchThemeAsset, ThemeAsset.picture.injEq]
    exact map_idem_of_idem _ (fun el => switchImageSource_idem el d) cs
  | img el => simp [switchThemeAsset, switchImageSource_idem]
  | other => rfl

theorem switchVisibility_idem (el : VisEl) (d : Bool) :
    switchVisibility (switchVisibility el d) d = switchVisibility el d := by
  obtain ⟨da, la, h⟩ := el
  cases d <;> cases da <;> cases la <;> cases h <;> rfl

theorem hasKey_map_update (o : List (String × String)) (k' v k : String) :
    hasKey (o.map (fun kv => if kv.1 == k' then (k', v) else kv)) k = hasKey o k := by
  induction o with
  | nil => rfl
  | cons kv rest ih =>
    simp only [hasKey, List.map_cons, List.any_cons] at *
    rw [ih]
    by_cases h : kv.1 = k'
    · simp [h]
    · have hb : (kv.1 == k') = false := beq_eq_false_iff_ne.mpr h
      simp [hb]

theorem hasKey_objSet (o : List (String × String)) (k' v k : String) :
    hasKey (objSet o k' v) k = (hasKey o k || (k' == k)) := by
  by_cases h : o.any (fun kv => kv.1 == k') = true
  · have hp : hasKey o k' = true := h
    rw [objSet, if_pos h, hasKey_map_update]
    by_cases hk : k' = k
    · subst hk
      simp [hp]
    · have hb : (k' == k) = false := beq_eq_false_iff_ne.mpr hk
      simp [hb]
  · rw [objSet, if_neg h]
    simp [hasKey, List.any_append]

theorem buildStepBin_hasKey (computed : String → String) (k : String)
    (acc : List (String × String) × List (String × String)) (item : String)
    (h1 : hasKey acc.1 k = true → (computed k).length ≠ 0)
    (h2 : hasKey acc.2 k = hasKey acc.1 k) :
    (hasKey (buildStepBin computed acc item).1 k = true → (computed k).length ≠ 0) ∧
    hasKey (buildStepBin computed acc item).2 k = hasKey (buildStepBin computed acc item).1 k := by
  by_cases hl : (computed ("--color--" ++ item)).length ≠ 0
  · simp only [buildStepBin]
    rw [if_pos hl]
    dsimp only
    simp only [hasKey_objSet]
    constructor
    · intro hk
      rcases Bool.or_eq_true_iff.mp hk with hk | hk
      · exact h1 hk
      · have hs : ("--color--" ++ item) = k := eq_of_beq hk
        rw [← hs]
        exact hl
    · rw [h2]
  · simp only [buildStepBin]
    rw [if_neg hl]
    exact ⟨h1, h2⟩

theorem buildBin_foldl_hasKey (computed : String → String) (k : String) :
    ∀ (vars : List String) (acc : List (String × String) × List (String × String)),
      (hasKey acc.1 k = true → (computed k).length ≠ 0) →
      hasKey acc.2 k = hasKey acc.1 k →
      (hasKey (vars.foldl (buildStepBin computed) acc).1 k = true →
        (computed k).length ≠ 0) ∧
      hasKey (vars.foldl (buildStepBin computed) acc).2 k
        = hasKey (vars.foldl (buildStepBin computed) acc).1 k := by
  intro vars
  induction vars with
  | nil => intro acc h1 h2; exact ⟨h1, h2⟩
  | cons v vars ih =>
    intro acc h1 h2
    have hstep := buildStepBin_hasKey computed k acc v h1 h2
    exact ih (buildStepBin computed acc v) hstep.1 hstep.2

theorem buildTri_foldl_hasKey_mono (computed : String → String) (k : String) :
    ∀ (vars : List String) (acc : List (String × String) × List (String × String)),
      hasKey acc.1 k = true → hasKey acc.2 k = true →
      hasKey (vars.foldl (buildStepTri computed) acc).1 k = true ∧
      hasKey (vars.foldl (buildStepTri computed) acc).2 k = true := by
  intro vars
  induction vars with
  | nil => intro acc h1 h2; exact ⟨h1, h2⟩
  | cons v vars ih =>
    intro acc h1 h2
    refine ih (buildStepTri computed acc v) ?_ ?_ <;>
      simp [buildStepTri, hasKey_objSet, h1, h2]

theorem buildTri_foldl_hasKey_mem (computed : String → String) (item : String) :
    ∀ (vars : List String) (acc : List (String × String) × List (String × String)),
      item ∈ vars →
      hasKey (vars.foldl (buildStepTri computed) acc).1 ("--color--" ++ item) = true ∧
      hasKey (vars.foldl (buildStepTri computed) acc).2 ("--color--" ++ item) = true := by
  intro vars
  induction vars with
  | nil => intro acc h; cases h
  | cons v vars ih =>
    intro acc h
    rcases List.mem_cons.mp h with h | h
    · subst h
      by_cases hrest : item ∈ vars
      · exact ih (buildStepTri computed acc item) hrest
      · refine buildTri_foldl_hasKey_mono computed ("--color--" ++ item) vars
          (buildStepTri computed acc item) ?_ ?_ <;>
          simp [buildStepTri, hasKey_objSet]
    · exact ih (buildStepTri computed acc v) h

theorem setTheme_eq (lc dc : List (String × String)) (mode : String) (s : TriState) :
    setTheme lc dc mode s
      = { storage := some mode,
          darkModeClass := resolveIsDark mode s.osDark,
          rootStyles := setColors s.rootStyles
            (if resolveIsDark mode s.osDark then dc else lc),
          assets := s.assets.map (fun a => switchThemeAsset a (resolveIsDark mode s.osDark)),
          visEls := s.visEls.map (fun el => switchVisibility el (resolveIsDark mode s.osDark)),
          toggleSystem := s.toggleSystem.map (fun _ => mode == "system"),
          toggleLight := s.toggleLight.map (fun _ => mode == "light"),
          toggleDark := s.toggleDark.map (fun _ => mode == "dark"),
          osDark := s.osDark } := rfl

theorem setTheme_darkModeClass (lc dc : List (String × String)) (mode : String)
    (s : TriState) :
    (setTheme lc dc mode s).darkModeClass = resolveIsDark mode s.osDark := rfl

theorem initializeTheme_eq (lc dc : List (String × String)) (s : TriState) :
    initializeTheme lc dc s = setTheme lc dc (storedModeOrSystem s.storage) s := rfl

theorem osChangeTri_eq (lc dc : List (String × String)) (e : Bool) (s : TriState) :
    osChangeTri lc dc e s
      = if s.storage == some "system" then setTheme lc dc "system" { s with osDark := e }
        else { s with osDark := e } := rfl

theorem goDark_eq (lc dc : List (String × String)) (dark : Bool) (s : BinState) :
    goDark lc dc dark s
      = { storage := some (if dark then "true" else "false"),
          darkModeClass := dark,
          rootStyles := setColors s.rootStyles (if dark then dc else lc),
          images := s.images.map (fun el => switchAssetBin el dark),
          togglePressed := if dark then "true" else "false",
          toggleAria := s.toggleAria.map
            (fun l => l.map (fun _ => if dark then "true" else "false")),
          osDark := s.osDark } := rfl

theorem initializeThemeBin_storage_isSome (lc dc : List (String × String)) (s : BinState) :
    (initializeThemeBin lc dc s).storage.isSome = true := by
  unfold initializeThemeBin
  cases s.storage <;> rfl

theorem osChangeBin_inert (lc dc : List (String × String)) (e : Bool) (s : BinState)
    (h : s.storage.isSome = true) :
    osChangeBin lc dc e s = { s with osDark := e } := by
  obtain ⟨st, dm, rs, im, tp, ta, od⟩ := s
  cases st with
  | none => exact Bool.noConfusion h
  | some v => rfl

theorem osChangeBin_foldl_inert (lc dc : List (String × String)) (es : List Bool) :
    ∀ s : BinState, s.storage.isSome = true →
      es.foldl (fun st e => osChangeBin lc dc e st) s
        = { s with osDark := es.foldl (fun _ e => e) s.osDark } := by
  induction es with
  | nil => intro s h; rfl
  | cons e es ih =>
    intro s h
    rw [List.foldl_cons, List.foldl_cons, osChangeBin_inert lc dc e s h]
    exact ih { s with osDark := e } h

/-- A baseline tri-state page for concrete evaluations: empty storage, no
assets, no controls, light OS. -/
def triState0 : TriState :=
  { storage := none, darkModeClass := false, rootStyles := fun _ => none,
    assets := [], visEls := [], toggleSystem := none, toggleLight := none,
    toggleDark := none, osDark := false }

/-- A baseline binary-variant page for concrete evaluations. -/
def binState0 : BinState :=
  { storage := none, darkModeClass := false, rootStyles := fun _ => none,
    images := [], togglePressed := "false", toggleAria := none, osDark := false }

/-! ## Claims -/

/-- C1: in the tri-state variant, `resolveIsDark` maps `'dark'` to `true`,
`'light'` to `false`, and `'system'` to the OS signal; booting with persisted
mode `'dark'` yields a dark appearance regardless of the OS signal, and
booting with persisted `'system'` yields the OS signal at resolution time. -/
theorem claim_C1_mode_resolution :
    (∀ os : Bool, resolveIsDark "dark" os = true) ∧
    (∀ os : Bool, resolveIsDark "light" os = false) ∧
    (∀ os : Bool, resolveIsDark "system" os = os) ∧
    (∀ (lc dc : List (String × String)) (s : TriState), s.storage = some "dark" →
      (initializeTheme lc dc s).darkModeClass = true) ∧
    (∀ (lc dc : List (String × String)) (s : TriState), s.storage = some "system" →
      (initializeTheme lc dc s).darkModeClass = s.osDark) := by
  have hdd : (("dark" : String) == "dark") = true := by decide
  have hsd : (("system" : String) == "dark") = false := by decide
  have hss : (("system" : String) == "system") = true := by decide
  have hld : (("light" : String) == "dark") = false := by decide
  have hls : (("light" : String) == "system") = false := by decide
  refine ⟨?_, ?_, ?_, ?_, ?_⟩
  · intro os; simp [resolveIsDark, hdd]
  · intro os; simp [resolveIsDark, hld, hls]
  · intro os; simp [resolveIsDark, hsd, hss]
  · intro lc dc s h
    rw [initializeTheme_eq, setTheme_darkModeClass, h]
    have hm : storedModeOrSystem (some "dark") = "dark" := by decide
    rw [hm]
    simp [resolveIsDark, hdd]
  · intro lc dc s h
    rw [initializeTheme_eq, setTheme_darkModeClass, h]
    have hm : storedModeOrSystem (some "system") = "system" := by decide
    rw [hm]
    simp [resolveIsDark, hsd, hss]

/-- C1 witness: concrete boots with persisted `'dark'` (OS light) and
persisted `'system'` (OS dark). -/
theorem claim_C1_mode_resolution_witness :
    (initializeTheme [] [] { triState0 with storage := some "dark" }).darkModeClass
      = true ∧
    (initializeTheme [] [] { triState0 with storage := some "system", osDark := true
      }).darkModeClass
      = ({ triState0 with storage := some "system", osDark := true } : TriState).osDark :=
  ⟨claim_C1_mode_resolution.2.2.2.1 [] [] _ rfl,
   claim_C1_mode_resolution.2.2.2.2 [] [] _ rfl⟩

/-- C2: in the tri-state variant, once `'light'` or `'dark'` is persisted, an
OS color-scheme change notification leaves the whole applied state unchanged
(only the live OS signal field differs): the handler re-applies only when the
persisted mode equals `'system'`. -/
theorem claim_C2_explicit_choice_precedence (lc dc : List (String × String)) (e : Bool)
    (s : TriState) (h : s.storage = some "light" ∨ s.storage = some "dark") :
    osChangeTri lc dc e s = { s with osDark := e } := by
  rw [osChangeTri_eq]
  rcases h with h | h <;> rw [h]
  · have hb : ((some "light" : Option String) == some "system") = false := by decide
    rw [hb]
    simp
  · have hb : ((some "dark" : Option String) == some "system") = false := by decide
    rw [hb]
    simp

/-- C2 witness: a concrete page with persisted `'dark'` receives an OS
change to dark and nothing but the live OS field moves. -/
theorem claim_C2_explicit_choice_precedence_witness :
    osChangeTri [] [] true { triState0 with storage := some "dark" }
      = { { triState0 with storage := some "dark" } with osDark := true } :=
  claim_C2_explicit_choice_precedence [] [] true _ (Or.inr rfl)

/-- C3 counterexample: booting with no persisted preference DOES write to
persistent storage before any user action — the tri-state variant stores
`'system'` (because `setTheme` always calls `localStorage.setItem`) and the
binary variant stores the stringified OS boolean (because `goDark` always
calls `localStorage.setItem`). -/
theorem claim_C3_boot_counterexample :
    (initializeTheme [] [] triState0).storage = some "system" ∧
    (initializeThemeBin [] [] binState0).storage = some "false" := by
  constructor <;> rfl

/-- C3 (amended): at boot a non-empty persisted preference is used as the
Theme Mode; otherwise the tri-state variant applies `'system'` and the binary
variant mirrors the OS boolean — but in the no-preference case the resolved
default is persisted at boot (`'system'` in the tri-state variant, the
stringified OS boolean in the binary variant) rather than left unwritten. -/
theorem claim_C3_boot_rule_amended :
    (∀ (lc dc : List (String × String)) (s : TriState) (v : String),
      s.storage = some v → v ≠ "" →
      initializeTheme lc dc s = setTheme lc dc v s) ∧
    (∀ (lc dc : List (String × String)) (s : TriState), s.storage = none →
      initializeTheme lc dc s = setTheme lc dc "system" s ∧
      (initializeTheme lc dc s).storage = some "system") ∧
    (∀ (lc dc : List (String × String)) (s : BinState) (v : String),
      s.storage = some v →
      initializeThemeBin lc dc s = goDark lc dc (v == "true") s) ∧
    (∀ (lc dc : List (String × String)) (s : BinState), s.storage = none →
      initializeThemeBin lc dc s = goDark lc dc s.osDark s ∧
      (initializeThemeBin lc dc s).storage
        = some (if s.osDark then "true" else "false")) := by
  refine ⟨?_, ?_, ?_, ?_⟩
  · intro lc dc s v hs hv
    rw [initializeTheme_eq, hs]
    have hb : (v == "") = false := beq_eq_false_iff_ne.mpr hv
    simp [storedModeOrSystem, hb]
  · intro lc dc s hs
    rw [initializeTheme_eq, hs]
    exact ⟨rfl, rfl⟩
  · intro lc dc s v hs
    unfold initializeThemeBin
    rw [hs]
  · intro lc dc s hs
    unfold initializeThemeBin
    rw [hs]
    exact ⟨rfl, rfl⟩

/-- C3 witness: persisted `'dark'` is used as the mode at boot (tri-state),
and a persisted string is used at boot (binary). -/
theorem claim_C3_boot_rule_amended_witness :
    initializeTheme [] [] { triState0 with storage := some "dark" }
      = setTheme [] [] "dark" { triState0 with storage := some "dark" } ∧
    initializeThemeBin [] [] { binState0 with storage := some "true" }
      = goDark [] [] (("true" : String) == "true")
          { binState0 with storage := some "true" } :=
  ⟨claim_C3_boot_rule_amended.1 [] [] _ "dark" rfl (by decide),
   claim_C3_boot_rule_amended.2.2.1 [] [] _ "true" rfl⟩

/-- C4 counterexample: in the tri-state builder, the declared name `brand`
has an empty/absent computed light value, yet `--color--brand` appears in
BOTH tables (the tri-state variants have no skip branch). -/
theorem claim_C4_skip_counterexample :
    ((fun _ => "") ("--color--" ++ "brand") : String).length = 0 ∧
    hasKey (buildTablesTri (fun _ => "") ["brand"]).1 ("--color--" ++ "brand") = true ∧
    hasKey (buildTablesTri (fun _ => "") ["brand"]).2 ("--color--" ++ "brand") = true := by
  refine ⟨rfl, ?_, ?_⟩ <;> decide

/-- C4 (amended): the skip law holds only in the binary variant — a declared
name with empty computed light value appears in neither of its tables; in the
tri-state variants every declared name appears in both tables, empty light
value or not. -/
theorem claim_C4_skip_law_amended :
    (∀ (computed : String → String) (vars : List String) (item : String),
      item ∈ vars → (computed ("--color--" ++ item)).length = 0 →
      hasKey (buildTablesBin computed vars).1 ("--color--" ++ item) = false ∧
      hasKey (buildTablesBin computed vars).2 ("--color--" ++ item) = false) ∧
    (∀ (computed : String → String) (vars : List String) (item : String),
      item ∈ vars →
      hasKey (buildTablesTri computed vars).1 ("--color--" ++ item) = true ∧
      hasKey (buildTablesTri computed vars).2 ("--color--" ++ item) = true) := by
  constructor
  · intro computed vars item _ hempty
    have h := buildBin_foldl_hasKey computed ("--color--" ++ item) vars ([], [])
      (fun hk => Bool.noConfusion hk) rfl
    have h1 : hasKey (buildTablesBin computed vars).1 ("--color--" ++ item) = false := by
      cases hk : hasKey (buildTablesBin computed vars).1 ("--color--" ++ item) with
      | false => rfl
      | true => exact absurd hempty (h.1 hk)
    refine ⟨h1, ?_⟩
    have h2 := h.2
    unfold buildTablesBin at h1 ⊢
    rw [h1] at h2
    exact h2
  · intro computed vars item hmem
    exact buildTri_foldl_hasKey_mem computed item vars ([], []) hmem

/-- C4 witness: concrete tables over declaration `brand,bg` where `bg` has an
empty light value — `--color--bg` lands in neither binary table. -/
theorem claim_C4_skip_law_amended_witness :
    hasKey (buildTablesBin
        (fun k => if k = "--color--" ++ "brand" then "#111" else "")
        ["brand", "bg"]).1 ("--color--" ++ "bg") = false ∧
    hasKey (buildTablesBin
        (fun k => if k = "--color--" ++ "brand" then "#111" else "")
        ["brand", "bg"]).2 ("--color--" ++ "bg") = false :=
  claim_C4_skip_law_amended.1
    (fun k => if k = "--color--" ++ "brand" then "#111" else "")
    ["brand", "bg"] "bg" (by decide) (by decide)

theorem mapSwitchThemeAsset_idem (d : Bool) (l : List ThemeAsset) :
    (l.map (fun a => switchThemeAsset a d)).map (fun a => switchThemeAsset a d)
      = l.map (fun a => switchThemeAsset a d) :=
  map_idem_of_idem _ (fun a => switchThemeAsset_idem a d) l

theorem mapSwitchVisibility_idem (d : Bool) (l : List VisEl) :
    (l.map (fun el => switchVisibility el d)).map (fun el => switchVisibility el d)
      = l.map (fun el => switchVisibility el d) :=
  map_idem_of_idem _ (fun el => switchVisibility_idem el d) l

theorem mapSwitchAssetBin_idem (d : Bool) (l : List ImgEl) :
    (l.map (fun el => switchAssetBin el d)).map (fun el => switchAssetBin el d)
      = l.map (fun el => switchAssetBin el d) :=
  map_idem_of_idem _ (fun el => switchAssetBin_idem el d) l

theorem optionConstMap_idem {α : Type} (c : α) (o : Option α) :
    (o.map (fun _ => c)).map (fun _ => c) = o.map (fun _ => c) := by
  cases o <;> rfl

theorem ariaMap_idem (p : String) (o : Option (List String)) :
    (o.map (fun l => l.map (fun _ => p))).map (fun l => l.map (fun _ => p))
      = o.map (fun l => l.map (fun _ => p)) := by
  cases o with
  | none => rfl
  | some l => simp [List.map_map, Function.comp]

/-- A `.theme-asset` image with only a light source declared. -/
def imgLightOnly : ImgEl :=
  { dataLightSrc := some "light.png", dataDarkSrc := none, dataLightSrcset := none,
    dataDarkSrcset := none, src := none, srcset := none }

/-- C5 counterexample: with the declaration element absent, the tri-state
variants neither warn nor stay inert — booting still switches assets (the
image's `src` is written) and still writes persistent storage. -/
theorem claim_C5_missing_config_counterexample :
    (triBoot none (fun _ => "") { triState0 with assets := [.img imgLightOnly] }).assets
      = [.img { imgLightOnly with src := some "light.png" }] ∧
    (triBoot none (fun _ => "") { triState0 with assets := [.img imgLightOnly] }).storage
      = some "system" := by
  constructor <;> rfl

/-- The JS `"".split(",")` yields `[""]`, so an empty declaration attribute
produces one empty declared name in the tri-state variants. -/
theorem triCssVariables_empty_attr : triCssVariables (some "") = [""] := by
  show "".splitOn "," = [""]
  rw [String.splitOn]
  rw [if_neg (by exact fun h => Bool.noConfusion h)]
  rw [String.splitOnAux]
  simp [String.atEnd, String.extract]
  intro h
  exact absurd rfl h

/-- C5 (amended): only the binary variant warns and performs no further
behavior when the declaration element is absent or its value is empty; the
tri-state variants log nothing and continue the whole boot in both cases
(asset switching, the storage write, class/toggle updates still occur, and
no exception): with the element absent the color tables are empty, and with
an empty attribute value the declared list is `[""]`, so both tables hold
the single junk key `--color--`. -/
theorem claim_C5_missing_config_amended :
    (∀ computed : String → String,
      colorModeToggleSetup none computed
        = .disabled "Script tag with tr-color-vars attribute not found") ∧
    (∀ computed : String → String,
      colorModeToggleSetup (some "") computed
        = .disabled "Value of tr-color-vars attribute not found") ∧
    (∀ (computed : String → String) (s : TriState),
      triBoot none computed s = initializeTheme [] [] (preloadCorrectAssets s)) ∧
    (∀ (computed : String → String) (s : TriState),
      triBoot (some "") computed s
        = initializeTheme [("--color--", computed "--color--")]
            [("--color--",
              if (computed "--dark--").length = 0 then computed "--color--"
              else computed "--dark--")]
            (preloadCorrectAssets s)) := by
  refine ⟨fun _ => rfl, fun _ => rfl, fun _ _ => rfl, ?_⟩
  intro computed s
  unfold triBoot
  rw [triCssVariables_empty_attr]
  rfl

/-- C6: in the tri-state variants' asset switching, an image-like element
whose declared source attributes for the target mode are absent is left
completely untouched by a switch to that mode. -/
theorem claim_C6_absent_target_no_mutation :
    (∀ el : ImgEl, el.dataDarkSrc = none → el.dataDarkSrcset = none →
      switchImageSource el true = el) ∧
    (∀ el : ImgEl, el.dataLightSrc = none → el.dataLightSrcset = none →
      switchImageSource el false = el) ∧
    (∀ el : ImgEl, el.dataDarkSrc = none → switchAsset000 el true = el) ∧
    (∀ el : ImgEl, el.dataLightSrc = none → switchAsset000 el false = el) := by
  refine ⟨?_, ?_, ?_, ?_⟩
  · intro el h1 h2
    simp [switchImageSource, h1, h2, attrTruthy]
  · intro el h1 h2
    simp [switchImageSource, h1, h2, attrTruthy]
  · intro el h1
    simp [switchAsset000, h1, attrTruthy]
  · intro el h1
    simp [switchAsset000, h1, attrTruthy]

/-- An image with only a dark source declared, for concrete evaluations. -/
def imgDarkOnly : ImgEl :=
  { dataLightSrc := none, dataDarkSrc := some "dark.png", dataLightSrcset := none,
    dataDarkSrcset := none, src := some "dark.png", srcset := none }

/-- C6 witness: an image with only a dark source declared is untouched by a
switch to light mode, in both tri-state variants. -/
theorem claim_C6_absent_target_no_mutation_witness :
    switchImageSource imgDarkOnly false = imgDarkOnly ∧
    switchAsset000 imgDarkOnly false = imgDarkOnly :=
  ⟨claim_C6_absent_target_no_mutation.2.1 _ rfl rfl,
   claim_C6_absent_target_no_mutation.2.2.2 _ rfl⟩

/-- C7: in the richest variant's visibility pass, an element carrying both
the `.dark-asset` and `.light-asset` classes never ends up with the `hidden`
class, in either mode, whatever its previous hidden state: the second
`classList.toggle` overwrites the first. -/
theorem claim_C7_both_classes_never_hidden (hid isDark : Bool) :
    (switchVisibility { darkAsset := true, lightAsset := true, hidden := hid }
        isDark).hidden = false := by
  cases isDark <;> rfl

/-- C8: applying the same resolved appearance twice in a row produces exactly
the state of applying it once — `setTheme` (tri-state) and `goDark` (binary)
are idempotent over the whole page state. -/
theorem claim_C8_apply_idempotent :
    (∀ (lc dc : List (String × String)) (mode : String) (s : TriState),
      setTheme lc dc mode (setTheme lc dc mode s) = setTheme lc dc mode s) ∧
    (∀ (lc dc : List (String × String)) (d : Bool) (s : BinState),
      goDark lc dc d (goDark lc dc d s) = goDark lc dc d s) := by
  constructor
  · intro lc dc mode s
    rw [setTheme_eq, setTheme_eq, TriState.mk.injEq]
    exact ⟨rfl, rfl, setColors_setColors _ _, mapSwitchThemeAsset_idem _ _,
      mapSwitchVisibility_idem _ _, optionConstMap_idem _ _, optionConstMap_idem _ _,
      optionConstMap_idem _ _, rfl⟩
  · intro lc dc d s
    rw [goDark_eq, goDark_eq, BinState.mk.injEq]
    exact ⟨rfl, rfl, setColors_setColors _ _, mapSwitchAssetBin_idem _ _, rfl,
      ariaMap_idem _ _, rfl⟩

/-- C10: in the tri-state variant, `setTheme` on a stored string that is none
of `'dark'`, `'light'`, `'system'` resolves to the light appearance, applies
the light table and light assets, re-persists the unrecognized string
unchanged, and marks no toggle control active. -/
theorem claim_C10_corrupted_mode (lc dc : List (String × String)) (mode : String)
    (s : TriState) (h1 : mode ≠ "dark") (h2 : mode ≠ "light") (h3 : mode ≠ "system") :
    (setTheme lc dc mode s).darkModeClass = false ∧
    (setTheme lc dc mode s).storage = some mode ∧
    (setTheme lc dc mode s).rootStyles = setColors s.rootStyles lc ∧
    (setTheme lc dc mode s).assets
      = s.assets.map (fun a => switchThemeAsset a false) ∧
    (setTheme lc dc mode s).visEls
      = s.visEls.map (fun el => switchVisibility el false) ∧
    (setTheme lc dc mode s).toggleSystem = s.toggleSystem.map (fun _ => false) ∧
    (setTheme lc dc mode s).toggleLight = s.toggleLight.map (fun _ => false) ∧
    (setTheme lc dc mode s).toggleDark = s.toggleDark.map (fun _ => false) := by
  have b1 : (mode == "dark") = false := beq_eq_false_iff_ne.mpr h1
  have b2 : (mode == "light") = false := beq_eq_false_iff_ne.mpr h2
  have b3 : (mode == "system") = false := beq_eq_false_iff_ne.mpr h3
  have hr : resolveIsDark mode s.osDark = false := by simp [resolveIsDark, b1, b3]
  rw [setTheme_eq]
  simp [hr, b1, b2, b3]

/-- C10 witness: the corrupted stored string `'bogus'` on a concrete page. -/
theorem claim_C10_corrupted_mode_witness :
    (setTheme [] [] "bogus" { triState0 with toggleDark := some true }).darkModeClass
        = false ∧
    (setTheme [] [] "bogus" { triState0 with toggleDark := some true }).storage
        = some "bogus" ∧
    (setTheme [] [] "bogus" { triState0 with toggleDark := some true }).rootStyles
        = setColors ({ triState0 with toggleDark := some true } : TriState).rootStyles [] ∧
    (setTheme [] [] "bogus" { triState0 with toggleDark := some true }).assets
        = ({ triState0 with toggleDark := some true } : TriState).assets.map
            (fun a => switchThemeAsset a false) ∧
    (setTheme [] [] "bogus" { triState0 with toggleDark := some true }).visEls
        = ({ triState0 with toggleDark := some true } : TriState).visEls.map
            (fun el => switchVisibility el false) ∧
    (setTheme [] [] "bogus" { triState0 with toggleDark := some true }).toggleSystem
        = ({ triState0 with toggleDark := some true } : TriState).toggleSystem.map
            (fun _ => false) ∧
    (setTheme [] [] "bogus" { triState0 with toggleDark := some true }).toggleLight
        = ({ triState0 with toggleDark := some true } : TriState).toggleLight.map
            (fun _ => false) ∧
    (setTheme [] [] "bogus" { triState0 with toggleDark := some true }).toggleDark
        = ({ triState0 with toggleDark := some true } : TriState).toggleDark.map
            (fun _ => false) :=
  claim_C10_corrupted_mode [] [] "bogus" _ (by decide) (by decide) (by decide)

/-- C9: in the binary variant every `goDark` call unconditionally writes the
`dark-mode` storage key, and `initializeTheme` calls `goDark` before
registering the OS change listener; hence after initialization the listener's
null-storage guard can never pass, and any sequence of OS change events
leaves the whole applied state untouched except the live OS-signal field. -/
theorem claim_C9_os_listener_dead :
    (∀ (lc dc : List (String × String)) (d : Bool) (s : BinState),
      (goDark lc dc d s).storage = some (if d then "true" else "false")) ∧
    (∀ (lc dc : List (String × String)) (s : BinState) (es : List Bool),
      es.foldl (fun st e => osChangeBin lc dc e st) (initializeThemeBin lc dc s)
        = { initializeThemeBin lc dc s with
            osDark := es.foldl (fun _ e => e) (initializeThemeBin lc dc s).osDark }) := by
  refine ⟨fun lc dc d s => rfl, ?_⟩
  intro lc dc s es
  exact osChangeBin_foldl_inert lc dc es (initializeThemeBin lc dc s)
    (initializeThemeBin_storage_isSome lc dc s)
